import Mathlib

/-!
Verification of the CloudFormation stack-operation polling loops of the
EHR-API repository (directory src/athena-sandbox/CloudFormation).

Three watch loops are embedded, each faithful to its Python source:

* wait_for_stack_operation, from deploy-complete-infrastructure.py
  (lines 69-106): waits for a CREATE or UPDATE to finish, polling
  describe_stacks every 10 seconds with a 120-attempt budget that is
  incremented only on the three known in-progress statuses.

* wait_for_stack_deletion, from teardown-complete-infrastructure.py
  (lines 58-91): waits for a DELETE to finish; each loop iteration first
  calls check_stack_exists (one describe_stacks query) as the loop
  condition and then describe_stacks again in the body; every continuing
  iteration increments the 120-attempt budget.

* delete_stack, from teardown-stack.py (lines 73-108): the same deletion
  loop but with no bound check on its counter, and with the whole loop
  wrapped in an outer try/except that turns any escaping ClientError into
  a False return.

The external control plane is modelled as a trace t : Nat -> Query giving
the result of the n-th query the watcher performs (counting from 0).  The
loops are driven by explicit fuel so that every definition is executable;
running out of fuel is reported as the distinguished outcome outOfFuel,
meaning the loop was still polling at that point.
-/

namespace EHRWatch

/-- Result of one describe_stacks call: either a stack description whose
StackStatus field is the given string, or a ClientError carrying the
message that `str(e)` would produce. -/
inductive Query where
  | ok (status : String)
  | err (msg : String)
deriving DecidableEq, Repr

/-- Which return/raise point of the Python function ended the watch.
Each constructor corresponds to one textual exit of the source:
succeeded to a `return True`, failed to the `return False` after a
failure status, timedOut to the `return False` after the budget check,
notFoundFailure to the `return False` in the CREATE not-found handler,
raised to an uncaught `raise`, caughtError to the outer except handler of
delete_stack (which prints the error and returns False), and outOfFuel to
the instrumentation running out of fuel while the loop was still going. -/
inductive Outcome where
  | succeeded
  | failed (rawStatus : String)
  | timedOut
  | notFoundFailure
  | raised (msg : String)
  | caughtError (msg : String)
  | outOfFuel
deriving DecidableEq, Repr

/-- The value the Python caller actually receives: `some (.ok b)` for a
normal return of the boolean b, `some (.error m)` for a propagated
ClientError with message m, `none` when the loop had not finished. -/
def Outcome.retVal : Outcome → Option (Except String Bool)
  | .succeeded => some (.ok true)
  | .failed _ => some (.ok false)
  | .timedOut => some (.ok false)
  | .notFoundFailure => some (.ok false)
  | .raised m => some (.error m)
  | .caughtError _ => some (.ok false)
  | .outOfFuel => none

/-- Instrumented result of running a watch loop: the outcome, the total
number of describe_stacks queries performed, and the number of
time.sleep(10) calls performed. -/
structure RunResult where
  outcome : Outcome
  queries : Nat
  sleeps : Nat
deriving DecidableEq, Repr

/-- Substring test on character lists, the semantics of the Python
expression `needle in haystack` on strings. -/
def starts_with : List Char → List Char → Bool
  | [], _ => true
  | _ :: _, [] => false
  | a :: ps, b :: ss => a == b && starts_with ps ss

/-- Whether p occurs as a contiguous substring of s. -/
def contains_sub (p : List Char) : List Char → Bool
  | [] => p.isEmpty
  | c :: rest => starts_with p (c :: rest) || contains_sub p rest

/-- The test applied to every caught ClientError in all three scripts: the
Python expression testing whether the text does not exist occurs in str(e). -/
def not_found_msg (msg : String) : Bool :=
  contains_sub "does not exist".toList msg.toList

/-- deploy-complete-infrastructure.py line 80: statuses on which
wait_for_stack_operation returns True. -/
def success_statuses : List String :=
  ["CREATE_COMPLETE", "UPDATE_COMPLETE"]

/-- deploy-complete-infrastructure.py lines 84-85: statuses on which
wait_for_stack_operation returns False with a failure message. -/
def failure_statuses : List String :=
  ["CREATE_FAILED", "ROLLBACK_COMPLETE", "ROLLBACK_FAILED",
   "UPDATE_ROLLBACK_COMPLETE", "UPDATE_ROLLBACK_FAILED"]

/-- deploy-complete-infrastructure.py lines 90-91: the known in-progress
statuses, the only ones that increment wait_count in the create/update
loop. -/
def in_progress_statuses : List String :=
  ["CREATE_IN_PROGRESS", "UPDATE_IN_PROGRESS",
   "UPDATE_COMPLETE_CLEANUP_IN_PROGRESS"]

/-- max_wait = 120, set in deploy-complete-infrastructure.py line 73 and
teardown-complete-infrastructure.py line 62. -/
def max_wait : Nat := 120

/-- The argument to every time.sleep call in the three stack watch loops. -/
def poll_interval_seconds : Nat := 10

/-- WaiterConfig Delay used by disable_rds_deletion_protection
(teardown-complete-infrastructure.py line 107, teardown-stack.py line 65). -/
def rds_waiter_delay_seconds : Nat := 30

/-- WaiterConfig MaxAttempts used by disable_rds_deletion_protection
(teardown-complete-infrastructure.py line 107, teardown-stack.py line 65). -/
def rds_waiter_max_attempts : Nat := 40

/-- The loop of wait_for_stack_operation (deploy-complete-infrastructure.py
lines 75-106).  Arguments after the trace: remaining fuel, queries made so
far, sleeps made so far, current wait_count. -/
def wait_for_stack_operation_aux (operation : String) (t : Nat → Query) :
    Nat → Nat → Nat → Nat → RunResult
  | 0, q, sl, _ => ⟨.outOfFuel, q, sl⟩
  | fuel + 1, q, sl, w =>
    match t q with
    | .ok status =>
      if status ∈ success_statuses then ⟨.succeeded, q + 1, sl⟩
      else if status ∈ failure_statuses then ⟨.failed status, q + 1, sl⟩
      else if status ∈ in_progress_statuses then
        if max_wait ≤ w + 1 then ⟨.timedOut, q + 1, sl⟩
        else wait_for_stack_operation_aux operation t fuel (q + 1) (sl + 1) (w + 1)
      else wait_for_stack_operation_aux operation t fuel (q + 1) (sl + 1) w
    | .err msg =>
      if not_found_msg msg && operation == "CREATE" then ⟨.notFoundFailure, q + 1, sl⟩
      else ⟨.raised msg, q + 1, sl⟩

/-- wait_for_stack_operation started from a fresh state (wait_count = 0). -/
def wait_for_stack_operation (operation : String) (t : Nat → Query) (fuel : Nat) :
    RunResult :=
  wait_for_stack_operation_aux operation t fuel 0 0 0

/-- The loop of wait_for_stack_deletion (teardown-complete-infrastructure.py
lines 64-91).  Each iteration performs the check_stack_exists query (the
while condition) and then, when the stack exists, the describe_stacks query
of the body. -/
def wait_for_stack_deletion_aux (t : Nat → Query) :
    Nat → Nat → Nat → Nat → RunResult
  | 0, q, sl, _ => ⟨.outOfFuel, q, sl⟩
  | fuel + 1, q, sl, w =>
    match t q with
    | .err msg =>
      if not_found_msg msg then ⟨.succeeded, q + 1, sl⟩
      else ⟨.raised msg, q + 1, sl⟩
    | .ok _ =>
      match t (q + 1) with
      | .ok status =>
        if status = "DELETE_FAILED" then ⟨.failed status, q + 2, sl⟩
        else if status = "DELETE_COMPLETE" then ⟨.succeeded, q + 2, sl⟩
        else if max_wait ≤ w + 1 then ⟨.timedOut, q + 2, sl⟩
        else wait_for_stack_deletion_aux t fuel (q + 2) (sl + 1) (w + 1)
      | .err msg =>
        if not_found_msg msg then ⟨.succeeded, q + 2, sl⟩
        else ⟨.raised msg, q + 2, sl⟩

/-- wait_for_stack_deletion started from a fresh state. -/
def wait_for_stack_deletion (t : Nat → Query) (fuel : Nat) : RunResult :=
  wait_for_stack_deletion_aux t fuel 0 0 0

/-- The loop of delete_stack (teardown-stack.py lines 80-104), including the
effect of the outer try/except of lines 75 and 106-108: a ClientError that
escapes the loop is caught there and turned into a False return, recorded
as the caughtError outcome.  The counter wait_count is incremented on every
continuing iteration but is never compared with any bound. -/
def delete_stack_aux (t : Nat → Query) :
    Nat → Nat → Nat → Nat → RunResult
  | 0, q, sl, _ => ⟨.outOfFuel, q, sl⟩
  | fuel + 1, q, sl, w =>
    match t q with
    | .err msg =>
      if not_found_msg msg then ⟨.succeeded, q + 1, sl⟩
      else ⟨.caughtError msg, q + 1, sl⟩
    | .ok _ =>
      match t (q + 1) with
      | .ok status =>
        if status = "DELETE_FAILED" then ⟨.failed status, q + 2, sl⟩
        else if status = "DELETE_COMPLETE" then ⟨.succeeded, q + 2, sl⟩
        else delete_stack_aux t fuel (q + 2) (sl + 1) (w + 1)
      | .err msg =>
        if not_found_msg msg then ⟨.succeeded, q + 2, sl⟩
        else ⟨.caughtError msg, q + 2, sl⟩

/-- delete_stack started from a fresh state. -/
def delete_stack (t : Nat → Query) (fuel : Nat) : RunResult :=
  delete_stack_aux t fuel 0 0 0

/-! Helper lemmas: disjointness of the status lists and one equation per
branch of each loop. -/

lemma failure_not_success {s : String} (hs : s ∈ failure_statuses) :
    s ∉ success_statuses := by
  fin_cases hs <;> decide

lemma in_progress_not_success {s : String} (hs : s ∈ in_progress_statuses) :
    s ∉ success_statuses := by
  fin_cases hs <;> decide

lemma in_progress_not_failure {s : String} (hs : s ∈ in_progress_statuses) :
    s ∉ failure_statuses := by
  fin_cases hs <;> decide

lemma deploy_ok_success {op s : String} {t : Nat → Query} {fuel q sl w : Nat}
    (ht : t q = Query.ok s) (hs : s ∈ success_statuses) :
    wait_for_stack_operation_aux op t (fuel + 1) q sl w = ⟨.succeeded, q + 1, sl⟩ := by
  simp only [wait_for_stack_operation_aux]
  rw [ht]
  simp [hs]

lemma deploy_ok_failure {op s : String} {t : Nat → Query} {fuel q sl w : Nat}
    (ht : t q = Query.ok s) (hs : s ∈ failure_statuses) :
    wait_for_stack_operation_aux op t (fuel + 1) q sl w = ⟨.failed s, q + 1, sl⟩ := by
  simp only [wait_for_stack_operation_aux]
  rw [ht]
  simp [hs, failure_not_success hs]

lemma deploy_ok_in_progress {op s : String} {t : Nat → Query} {fuel q sl w : Nat}
    (ht : t q = Query.ok s) (hs : s ∈ in_progress_statuses) (hw : w + 1 < max_wait) :
    wait_for_stack_operation_aux op t (fuel + 1) q sl w =
      wait_for_stack_operation_aux op t fuel (q + 1) (sl + 1) (w + 1) := by
  simp only [wait_for_stack_operation_aux]
  rw [ht]
  simp [hs, in_progress_not_success hs, in_progress_not_failure hs, Nat.not_le.mpr hw]

lemma deploy_ok_in_progress_timeout {op s : String} {t : Nat → Query} {fuel q sl w : Nat}
    (ht : t q = Query.ok s) (hs : s ∈ in_progress_statuses) (hw : max_wait ≤ w + 1) :
    wait_for_stack_operation_aux op t (fuel + 1) q sl w = ⟨.timedOut, q + 1, sl⟩ := by
  simp only [wait_for_stack_operation_aux]
  rw [ht]
  simp [hs, in_progress_not_success hs, in_progress_not_failure hs, hw]

lemma deploy_ok_other {op s : String} {t : Nat → Query} {fuel q sl w : Nat}
    (ht : t q = Query.ok s) (h1 : s ∉ success_statuses) (h2 : s ∉ failure_statuses)
    (h3 : s ∉ in_progress_statuses) :
    wait_for_stack_operation_aux op t (fuel + 1) q sl w =
      wait_for_stack_operation_aux op t fuel (q + 1) (sl + 1) w := by
  simp only [wait_for_stack_operation_aux]
  rw [ht]
  simp [h1, h2, h3]

lemma deploy_err_create {m : String} {t : Nat → Query} {fuel q sl w : Nat}
    (ht : t q = Query.err m) (hm : not_found_msg m = true) :
    wait_for_stack_operation_aux "CREATE" t (fuel + 1) q sl w =
      ⟨.notFoundFailure, q + 1, sl⟩ := by
  simp only [wait_for_stack_operation_aux]
  rw [ht]
  simp [hm]

lemma deploy_err_raise_not_create {op m : String} {t : Nat → Query} {fuel q sl w : Nat}
    (ht : t q = Query.err m) (hop : op ≠ "CREATE") :
    wait_for_stack_operation_aux op t (fuel + 1) q sl w = ⟨.raised m, q + 1, sl⟩ := by
  simp only [wait_for_stack_operation_aux]
  rw [ht]
  simp [hop]

lemma deploy_err_raise_transport {op m : String} {t : Nat → Query} {fuel q sl w : Nat}
    (ht : t q = Query.err m) (hm : not_found_msg m = false) :
    wait_for_stack_operation_aux op t (fuel + 1) q sl w = ⟨.raised m, q + 1, sl⟩ := by
  simp only [wait_for_stack_operation_aux]
  rw [ht]
  simp [hm]

lemma wfsd_cond_not_found {m : String} {t : Nat → Query} {fuel q sl w : Nat}
    (ht : t q = Query.err m) (hm : not_found_msg m = true) :
    wait_for_stack_deletion_aux t (fuel + 1) q sl w = ⟨.succeeded, q + 1, sl⟩ := by
  simp only [wait_for_stack_deletion_aux]
  rw [ht]
  simp [hm]

lemma wfsd_cond_raise {m : String} {t : Nat → Query} {fuel q sl w : Nat}
    (ht : t q = Query.err m) (hm : not_found_msg m = false) :
    wait_for_stack_deletion_aux t (fuel + 1) q sl w = ⟨.raised m, q + 1, sl⟩ := by
  simp only [wait_for_stack_deletion_aux]
  rw [ht]
  simp [hm]

lemma wfsd_body_failed {e : String} {t : Nat → Query} {fuel q sl w : Nat}
    (h0 : t q = Query.ok e) (h1 : t (q + 1) = Query.ok "DELETE_FAILED") :
    wait_for_stack_deletion_aux t (fuel + 1) q sl w =
      ⟨.failed "DELETE_FAILED", q + 2, sl⟩ := by
  simp only [wait_for_stack_deletion_aux]
  rw [h0, h1]
  simp

lemma wfsd_body_complete {e : String} {t : Nat → Query} {fuel q sl w : Nat}
    (h0 : t q = Query.ok e) (h1 : t (q + 1) = Query.ok "DELETE_COMPLETE") :
    wait_for_stack_deletion_aux t (fuel + 1) q sl w = ⟨.succeeded, q + 2, sl⟩ := by
  simp only [wait_for_stack_deletion_aux]
  rw [h0, h1]
  simp

lemma wfsd_body_not_found {e m : String} {t : Nat → Query} {fuel q sl w : Nat}
    (h0 : t q = Query.ok e) (h1 : t (q + 1) = Query.err m) (hm : not_found_msg m = true) :
    wait_for_stack_deletion_aux t (fuel + 1) q sl w = ⟨.succeeded, q + 2, sl⟩ := by
  simp only [wait_for_stack_deletion_aux]
  rw [h0, h1]
  simp [hm]

lemma wfsd_body_raise {e m : String} {t : Nat → Query} {fuel q sl w : Nat}
    (h0 : t q = Query.ok e) (h1 : t (q + 1) = Query.err m) (hm : not_found_msg m = false) :
    wait_for_stack_deletion_aux t (fuel + 1) q sl w = ⟨.raised m, q + 2, sl⟩ := by
  simp only [wait_for_stack_deletion_aux]
  rw [h0, h1]
  simp [hm]

lemma wfsd_body_timeout {e s : String} {t : Nat → Query} {fuel q sl w : Nat}
    (h0 : t q = Query.ok e) (h1 : t (q + 1) = Query.ok s)
    (hf : s ≠ "DELETE_FAILED") (hc : s ≠ "DELETE_COMPLETE") (hw : max_wait ≤ w + 1) :
    wait_for_stack_deletion_aux t (fuel + 1) q sl w = ⟨.timedOut, q + 2, sl⟩ := by
  simp only [wait_for_stack_deletion_aux]
  rw [h0, h1]
  simp [hf, hc, hw]

lemma wfsd_body_continue {e s : String} {t : Nat → Query} {fuel q sl w : Nat}
    (h0 : t q = Query.ok e) (h1 : t (q + 1) = Query.ok s)
    (hf : s ≠ "DELETE_FAILED") (hc : s ≠ "DELETE_COMPLETE") (hw : w + 1 < max_wait) :
    wait_for_stack_deletion_aux t (fuel + 1) q sl w =
      wait_for_stack_deletion_aux t fuel (q + 2) (sl + 1) (w + 1) := by
  simp only [wait_for_stack_deletion_aux]
  rw [h0, h1]
  simp [hf, hc, Nat.not_le.mpr hw]

lemma ds_cond_not_found {m : String} {t : Nat → Query} {fuel q sl w : Nat}
    (ht : t q = Query.err m) (hm : not_found_msg m = true) :
    delete_stack_aux t (fuel + 1) q sl w = ⟨.succeeded, q + 1, sl⟩ := by
  simp only [delete_stack_aux]
  rw [ht]
  simp [hm]

lemma ds_cond_caught {m : String} {t : Nat → Query} {fuel q sl w : Nat}
    (ht : t q = Query.err m) (hm : not_found_msg m = false) :
    delete_stack_aux t (fuel + 1) q sl w = ⟨.caughtError m, q + 1, sl⟩ := by
  simp only [delete_stack_aux]
  rw [ht]
  simp [hm]

lemma ds_body_failed {e : String} {t : Nat → Query} {fuel q sl w : Nat}
    (h0 : t q = Query.ok e) (h1 : t (q + 1) = Query.ok "DELETE_FAILED") :
    delete_stack_aux t (fuel + 1) q sl w = ⟨.failed "DELETE_FAILED", q + 2, sl⟩ := by
  simp only [delete_stack_aux]
  rw [h0, h1]
  simp

lemma ds_body_complete {e : String} {t : Nat → Query} {fuel q sl w : Nat}
    (h0 : t q = Query.ok e) (h1 : t (q + 1) = Query.ok "DELETE_COMPLETE") :
    delete_stack_aux t (fuel + 1) q sl w = ⟨.succeeded, q + 2, sl⟩ := by
  simp only [delete_stack_aux]
  rw [h0, h1]
  simp

lemma ds_body_not_found {e m : String} {t : Nat → Query} {fuel q sl w : Nat}
    (h0 : t q = Query.ok e) (h1 : t (q + 1) = Query.err m) (hm : not_found_msg m = true) :
    delete_stack_aux t (fuel + 1) q sl w = ⟨.succeeded, q + 2, sl⟩ := by
  simp only [delete_stack_aux]
  rw [h0, h1]
  simp [hm]

lemma ds_body_caught {e m : String} {t : Nat → Query} {fuel q sl w : Nat}
    (h0 : t q = Query.ok e) (h1 : t (q + 1) = Query.err m) (hm : not_found_msg m = false) :
    delete_stack_aux t (fuel + 1) q sl w = ⟨.caughtError m, q + 2, sl⟩ := by
  simp only [delete_stack_aux]
  rw [h0, h1]
  simp [hm]

lemma ds_body_continue {e s : String} {t : Nat → Query} {fuel q sl w : Nat}
    (h0 : t q = Query.ok e) (h1 : t (q + 1) = Query.ok s)
    (hf : s ≠ "DELETE_FAILED") (hc : s ≠ "DELETE_COMPLETE") :
    delete_stack_aux t (fuel + 1) q sl w =
      delete_stack_aux t fuel (q + 2) (sl + 1) (w + 1) := by
  simp only [delete_stack_aux]
  rw [h0, h1]
  simp [hf, hc]

/-! Helper lemmas about whole runs, proved by induction on the number of
remaining counted attempts or on the fuel. -/

lemma deploy_const_in_progress_timeout {op s : String} (hs : s ∈ in_progress_statuses) :
    ∀ k fuel q sl w, w + k = max_wait → 0 < k → k ≤ fuel →
      wait_for_stack_operation_aux op (fun _ => Query.ok s) fuel q sl w =
        ⟨.timedOut, q + k, sl + (k - 1)⟩ := by
  intro k
  induction k with
  | zero => intro fuel q sl w _ h0 _; exact absurd h0 (lt_irrefl 0)
  | succ n ih =>
    intro fuel q sl w hw _ hf
    obtain ⟨fuel2, rfl⟩ : ∃ f2, fuel = f2 + 1 := ⟨fuel - 1, by omega⟩
    by_cases hn : n = 0
    · subst hn
      rw [deploy_ok_in_progress_timeout rfl hs (by omega)]
      simp
    · rw [deploy_ok_in_progress rfl hs (by omega),
        ih fuel2 (q + 1) (sl + 1) (w + 1) (by omega) (by omega) (by omega)]
      have e1 : q + 1 + n = q + (n + 1) := by omega
      have e2 : sl + 1 + (n - 1) = sl + (n + 1 - 1) := by omega
      rw [e1, e2]

lemma deploy_const_other_loops {op s : String} (h1 : s ∉ success_statuses)
    (h2 : s ∉ failure_statuses) (h3 : s ∉ in_progress_statuses) :
    ∀ fuel q sl w, wait_for_stack_operation_aux op (fun _ => Query.ok s) fuel q sl w =
      ⟨.outOfFuel, q + fuel, sl + fuel⟩ := by
  intro fuel
  induction fuel with
  | zero => intro q sl w; simp [wait_for_stack_operation_aux]
  | succ n ih =>
    intro q sl w
    rw [deploy_ok_other rfl h1 h2 h3, ih]
    have e1 : q + 1 + n = q + (n + 1) := by omega
    have e2 : sl + 1 + n = sl + (n + 1) := by omega
    rw [e1, e2]

lemma wfsd_const_timeout {s : String} (hf : s ≠ "DELETE_FAILED")
    (hc : s ≠ "DELETE_COMPLETE") :
    ∀ k fuel q sl w, w + k = max_wait → 0 < k → k ≤ fuel →
      wait_for_stack_deletion_aux (fun _ => Query.ok s) fuel q sl w =
        ⟨.timedOut, q + 2 * k, sl + (k - 1)⟩ := by
  intro k
  induction k with
  | zero => intro fuel q sl w _ h0 _; exact absurd h0 (lt_irrefl 0)
  | succ n ih =>
    intro fuel q sl w hw _ hfl
    obtain ⟨fuel2, rfl⟩ : ∃ f2, fuel = f2 + 1 := ⟨fuel - 1, by omega⟩
    by_cases hn : n = 0
    · subst hn
      rw [wfsd_body_timeout rfl rfl hf hc (by omega)]
      simp
    · rw [wfsd_body_continue rfl rfl hf hc (by omega),
        ih fuel2 (q + 2) (sl + 1) (w + 1) (by omega) (by omega) (by omega)]
      have e1 : q + 2 + 2 * n = q + 2 * (n + 1) := by omega
      have e2 : sl + 1 + (n - 1) = sl + (n + 1 - 1) := by omega
      rw [e1, e2]

lemma wfsd_queries_bound (t : Nat → Query) :
    ∀ fuel q sl w, w < max_wait →
      (wait_for_stack_deletion_aux t fuel q sl w).queries ≤ q + 2 * (max_wait - w) := by
  intro fuel
  induction fuel with
  | zero =>
    intro q sl w hw
    simp only [wait_for_stack_deletion_aux]
    omega
  | succ n ih =>
    intro q sl w hw
    cases h0 : t q with
    | err m =>
      by_cases hm : not_found_msg m = true
      · rw [wfsd_cond_not_found h0 hm]; dsimp only; omega
      · rw [wfsd_cond_raise h0 (by simpa using hm)]; dsimp only; omega
    | ok e =>
      cases h1 : t (q + 1) with
      | err m =>
        by_cases hm : not_found_msg m = true
        · rw [wfsd_body_not_found h0 h1 hm]; dsimp only; omega
        · rw [wfsd_body_raise h0 h1 (by simpa using hm)]; dsimp only; omega
      | ok s =>
        by_cases hsf : s = "DELETE_FAILED"
        · subst hsf; rw [wfsd_body_failed h0 h1]; dsimp only; omega
        · by_cases hsc : s = "DELETE_COMPLETE"
          · subst hsc; rw [wfsd_body_complete h0 h1]; dsimp only; omega
          · by_cases hwt : max_wait ≤ w + 1
            · rw [wfsd_body_timeout h0 h1 hsf hsc hwt]; dsimp only; omega
            · rw [wfsd_body_continue h0 h1 hsf hsc (by omega)]
              have hb := ih (q + 2) (sl + 1) (w + 1) (by omega)
              omega

lemma wfsd_succeeded_source (t : Nat → Query) :
    ∀ fuel q sl w, (wait_for_stack_deletion_aux t fuel q sl w).outcome = Outcome.succeeded →
      ∃ i, q ≤ i ∧ i < (wait_for_stack_deletion_aux t fuel q sl w).queries ∧
        (t i = Query.ok "DELETE_COMPLETE" ∨
          ∃ m, t i = Query.err m ∧ not_found_msg m = true) := by
  intro fuel
  induction fuel with
  | zero =>
    intro q sl w h
    simp [wait_for_stack_deletion_aux] at h
  | succ n ih =>
    intro q sl w h
    cases h0 : t q with
    | err m =>
      by_cases hm : not_found_msg m = true
      · rw [wfsd_cond_not_found h0 hm]
        exact ⟨q, le_refl q, by simp, Or.inr ⟨m, h0, hm⟩⟩
      · rw [wfsd_cond_raise h0 (by simpa using hm)] at h
        simp at h
    | ok e =>
      cases h1 : t (q + 1) with
      | ok s =>
        by_cases hsf : s = "DELETE_FAILED"
        · subst hsf
          rw [wfsd_body_failed h0 h1] at h
          simp at h
        · by_cases hsc : s = "DELETE_COMPLETE"
          · subst hsc
            rw [wfsd_body_complete h0 h1]
            exact ⟨q + 1, by omega, by simp, Or.inl h1⟩
          · by_cases hw2 : max_wait ≤ w + 1
            · rw [wfsd_body_timeout h0 h1 hsf hsc hw2] at h
              simp at h
            · rw [wfsd_body_continue h0 h1 hsf hsc (by omega)] at h ⊢
              obtain ⟨i, hi1, hi2, hi3⟩ := ih (q + 2) (sl + 1) (w + 1) h
              exact ⟨i, by omega, hi2, hi3⟩
      | err m =>
        by_cases hm : not_found_msg m = true
        · rw [wfsd_body_not_found h0 h1 hm]
          exact ⟨q + 1, by omega, by simp, Or.inr ⟨m, h1, hm⟩⟩
        · rw [wfsd_body_raise h0 h1 (by simpa using hm)] at h
          simp at h

lemma wfsd_failed_source (t : Nat → Query) :
    ∀ fuel q sl w s, (wait_for_stack_deletion_aux t fuel q sl w).outcome = Outcome.failed s →
      s = "DELETE_FAILED" ∧
        ∃ i, q ≤ i ∧ i < (wait_for_stack_deletion_aux t fuel q sl w).queries ∧
          t i = Query.ok "DELETE_FAILED" := by
  intro fuel
  induction fuel with
  | zero =>
    intro q sl w s h
    simp [wait_for_stack_deletion_aux] at h
  | succ n ih =>
    intro q sl w s h
    cases h0 : t q with
    | err m =>
      by_cases hm : not_found_msg m = true
      · rw [wfsd_cond_not_found h0 hm] at h
        simp at h
      · rw [wfsd_cond_raise h0 (by simpa using hm)] at h
        simp at h
    | ok e =>
      cases h1 : t (q + 1) with
      | ok st =>
        by_cases hsf : st = "DELETE_FAILED"
        · subst hsf
          rw [wfsd_body_failed h0 h1] at h
          rw [wfsd_body_failed h0 h1]
          simp only [Outcome.failed.injEq] at h
          refine ⟨h.symm, q + 1, by omega, by simp, h1⟩
        · by_cases hsc : st = "DELETE_COMPLETE"
          · subst hsc
            rw [wfsd_body_complete h0 h1] at h
            simp at h
          · by_cases hw2 : max_wait ≤ w + 1
            · rw [wfsd_body_timeout h0 h1 hsf hsc hw2] at h
              simp at h
            · rw [wfsd_body_continue h0 h1 hsf hsc (by omega)] at h ⊢
              obtain ⟨hs, i, hi1, hi2, hi3⟩ := ih (q + 2) (sl + 1) (w + 1) s h
              exact ⟨hs, i, by omega, hi2, hi3⟩
      | err m =>
        by_cases hm : not_found_msg m = true
        · rw [wfsd_body_not_found h0 h1 hm] at h
          simp at h
        · rw [wfsd_body_raise h0 h1 (by simpa using hm)] at h
          simp at h

lemma ds_succeeded_source (t : Nat → Query) :
    ∀ fuel q sl w, (delete_stack_aux t fuel q sl w).outcome = Outcome.succeeded →
      ∃ i, q ≤ i ∧ i < (delete_stack_aux t fuel q sl w).queries ∧
        (t i = Query.ok "DELETE_COMPLETE" ∨
          ∃ m, t i = Query.err m ∧ not_found_msg m = true) := by
  intro fuel
  induction fuel with
  | zero =>
    intro q sl w h
    simp [delete_stack_aux] at h
  | succ n ih =>
    intro q sl w h
    cases h0 : t q with
    | err m =>
      by_cases hm : not_found_msg m = true
      · rw [ds_cond_not_found h0 hm]
        exact ⟨q, le_refl q, by simp, Or.inr ⟨m, h0, hm⟩⟩
      · rw [ds_cond_caught h0 (by simpa using hm)] at h
        simp at h
    | ok e =>
      cases h1 : t (q + 1) with
      | ok s =>
        by_cases hsf : s = "DELETE_FAILED"
        · subst hsf
          rw [ds_body_failed h0 h1] at h
          simp at h
        · by_cases hsc : s = "DELETE_COMPLETE"
          · subst hsc
            rw [ds_body_complete h0 h1]
            exact ⟨q + 1, by omega, by simp, Or.inl h1⟩
          · rw [ds_body_continue h0 h1 hsf hsc] at h ⊢
            obtain ⟨i, hi1, hi2, hi3⟩ := ih (q + 2) (sl + 1) (w + 1) h
            exact ⟨i, by omega, hi2, hi3⟩
      | err m =>
        by_cases hm : not_found_msg m = true
        · rw [ds_body_not_found h0 h1 hm]
          exact ⟨q + 1, by omega, by simp, Or.inr ⟨m, h1, hm⟩⟩
        · rw [ds_body_caught h0 h1 (by simpa using hm)] at h
          simp at h

lemma ds_failed_source (t : Nat → Query) :
    ∀ fuel q sl w s, (delete_stack_aux t fuel q sl w).outcome = Outcome.failed s →
      s = "DELETE_FAILED" ∧
        ∃ i, q ≤ i ∧ i < (delete_stack_aux t fuel q sl w).queries ∧
          t i = Query.ok "DELETE_FAILED" := by
  intro fuel
  induction fuel with
  | zero =>
    intro q sl w s h
    simp [delete_stack_aux] at h
  | succ n ih =>
    intro q sl w s h
    cases h0 : t q with
    | err m =>
      by_cases hm : not_found_msg m = true
      · rw [ds_cond_not_found h0 hm] at h
        simp at h
      · rw [ds_cond_caught h0 (by simpa using hm)] at h
        simp at h
    | ok e =>
      cases h1 : t (q + 1) with
      | ok st =>
        by_cases hsf : st = "DELETE_FAILED"
        · subst hsf
          rw [ds_body_failed h0 h1] at h
          rw [ds_body_failed h0 h1]
          simp only [Outcome.failed.injEq] at h
          refine ⟨h.symm, q + 1, by omega, by simp, h1⟩
        · by_cases hsc : st = "DELETE_COMPLETE"
          · subst hsc
            rw [ds_body_complete h0 h1] at h
            simp at h
          · rw [ds_body_continue h0 h1 hsf hsc] at h ⊢
            obtain ⟨hs, i, hi1, hi2, hi3⟩ := ih (q + 2) (sl + 1) (w + 1) s h
            exact ⟨hs, i, by omega, hi2, hi3⟩
      | err m =>
        by_cases hm : not_found_msg m = true
        · rw [ds_body_not_found h0 h1 hm] at h
          simp at h
        · rw [ds_body_caught h0 h1 (by simpa using hm)] at h
          simp at h

lemma ds_const_loops {s : String} (hf : s ≠ "DELETE_FAILED")
    (hc : s ≠ "DELETE_COMPLETE") :
    ∀ fuel q sl w, delete_stack_aux (fun _ => Query.ok s) fuel q sl w =
      ⟨.outOfFuel, q + 2 * fuel, sl + fuel⟩ := by
  intro fuel
  induction fuel with
  | zero => intro q sl w; simp [delete_stack_aux]
  | succ n ih =>
    intro q sl w
    rw [ds_body_continue rfl rfl hf hc, ih]
    have e1 : q + 2 + 2 * n = q + 2 * (n + 1) := by omega
    have e2 : sl + 1 + n = sl + (n + 1) := by omega
    rw [e1, e2]

/-! Claim theorems.  Each theorem names a claim of the specification review
and states it over the embedded watch loops. -/

/-- C1: in the create/update watcher, a status query returning
CREATE_COMPLETE or UPDATE_COMPLETE makes the watch return SUCCEEDED
immediately; a query returning one of the five failure statuses makes it
return FAILED carrying that exact status; any other status (whether an
in-progress or an unrecognized one) is non-terminal and, while the attempt
budget allows another poll, is followed by one sleep of the poll interval
and another query. -/
theorem C1_create_update_classification (op s : String) (t : Nat → Query)
    (fuel q sl w : Nat) (ht : t q = Query.ok s) :
    (s ∈ success_statuses →
      wait_for_stack_operation_aux op t (fuel + 1) q sl w =
        ⟨Outcome.succeeded, q + 1, sl⟩) ∧
    (s ∈ failure_statuses →
      wait_for_stack_operation_aux op t (fuel + 1) q sl w =
        ⟨Outcome.failed s, q + 1, sl⟩) ∧
    (s ∉ success_statuses → s ∉ failure_statuses →
      (s ∈ in_progress_statuses → w + 1 < max_wait) →
      wait_for_stack_operation_aux op t (fuel + 1) q sl w =
        wait_for_stack_operation_aux op t fuel (q + 1) (sl + 1)
          (if s ∈ in_progress_statuses then w + 1 else w)) := by
  refine ⟨fun hs => deploy_ok_success ht hs, fun hs => deploy_ok_failure ht hs,
    fun h1 h2 h3 => ?_⟩
  by_cases hip : s ∈ in_progress_statuses
  · rw [if_pos hip]
    exact deploy_ok_in_progress ht hip (h3 hip)
  · rw [if_neg hip]
    exact deploy_ok_other ht h1 h2 hip

/-- Witness for C1 at a concrete trace: the first query returns
CREATE_COMPLETE and the watch returns SUCCEEDED after exactly one query. -/
theorem C1_create_update_classification_witness :
    wait_for_stack_operation_aux "CREATE" (fun _ => Query.ok "CREATE_COMPLETE") 4 0 0 0 =
      ⟨Outcome.succeeded, 1, 0⟩ :=
  (C1_create_update_classification "CREATE" "CREATE_COMPLETE"
    (fun _ => Query.ok "CREATE_COMPLETE") 3 0 0 0 rfl).1 (by decide)

/-- C2: in both delete watch loops, the watch returns SUCCEEDED exactly when
it observes DELETE_COMPLETE at a status fetch or a query failure whose
message contains "does not exist" (at the existence check or the status
fetch); it returns FAILED exactly when the status fetch observes
DELETE_FAILED; any other observed status is non-terminal and, in the
bounded loop while the budget allows, leads to another poll. -/
theorem C2_delete_classification (t : Nat → Query) (fuel q sl w : Nat) :
    (∀ m, t q = Query.err m → not_found_msg m = true →
      wait_for_stack_deletion_aux t (fuel + 1) q sl w = ⟨Outcome.succeeded, q + 1, sl⟩ ∧
      delete_stack_aux t (fuel + 1) q sl w = ⟨Outcome.succeeded, q + 1, sl⟩) ∧
    (∀ e, t q = Query.ok e → t (q + 1) = Query.ok "DELETE_COMPLETE" →
      wait_for_stack_deletion_aux t (fuel + 1) q sl w = ⟨Outcome.succeeded, q + 2, sl⟩ ∧
      delete_stack_aux t (fuel + 1) q sl w = ⟨Outcome.succeeded, q + 2, sl⟩) ∧
    (∀ e m, t q = Query.ok e → t (q + 1) = Query.err m → not_found_msg m = true →
      wait_for_stack_deletion_aux t (fuel + 1) q sl w = ⟨Outcome.succeeded, q + 2, sl⟩ ∧
      delete_stack_aux t (fuel + 1) q sl w = ⟨Outcome.succeeded, q + 2, sl⟩) ∧
    (∀ e, t q = Query.ok e → t (q + 1) = Query.ok "DELETE_FAILED" →
      wait_for_stack_deletion_aux t (fuel + 1) q sl w =
        ⟨Outcome.failed "DELETE_FAILED", q + 2, sl⟩ ∧
      delete_stack_aux t (fuel + 1) q sl w =
        ⟨Outcome.failed "DELETE_FAILED", q + 2, sl⟩) ∧
    (∀ e s, t q = Query.ok e → t (q + 1) = Query.ok s →
      s ≠ "DELETE_FAILED" → s ≠ "DELETE_COMPLETE" →
      (w + 1 < max_wait →
        wait_for_stack_deletion_aux t (fuel + 1) q sl w =
          wait_for_stack_deletion_aux t fuel (q + 2) (sl + 1) (w + 1)) ∧
      delete_stack_aux t (fuel + 1) q sl w =
        delete_stack_aux t fuel (q + 2) (sl + 1) (w + 1)) ∧
    ((wait_for_stack_deletion_aux t fuel q sl w).outcome = Outcome.succeeded →
      ∃ i, q ≤ i ∧ i < (wait_for_stack_deletion_aux t fuel q sl w).queries ∧
        (t i = Query.ok "DELETE_COMPLETE" ∨
          ∃ m, t i = Query.err m ∧ not_found_msg m = true)) ∧
    ((delete_stack_aux t fuel q sl w).outcome = Outcome.succeeded →
      ∃ i, q ≤ i ∧ i < (delete_stack_aux t fuel q sl w).queries ∧
        (t i = Query.ok "DELETE_COMPLETE" ∨
          ∃ m, t i = Query.err m ∧ not_found_msg m = true)) ∧
    (∀ s, (wait_for_stack_deletion_aux t fuel q sl w).outcome = Outcome.failed s →
      s = "DELETE_FAILED" ∧
        ∃ i, q ≤ i ∧ i < (wait_for_stack_deletion_aux t fuel q sl w).queries ∧
          t i = Query.ok "DELETE_FAILED") ∧
    (∀ s, (delete_stack_aux t fuel q sl w).outcome = Outcome.failed s →
      s = "DELETE_FAILED" ∧
        ∃ i, q ≤ i ∧ i < (delete_stack_aux t fuel q sl w).queries ∧
          t i = Query.ok "DELETE_FAILED") := by
  refine ⟨?_, ?_, ?_, ?_, ?_, ?_, ?_, ?_, ?_⟩
  · intro m ht hm
    exact ⟨wfsd_cond_not_found ht hm, ds_cond_not_found ht hm⟩
  · intro e h0 h1
    exact ⟨wfsd_body_complete h0 h1, ds_body_complete h0 h1⟩
  · intro e m h0 h1 hm
    exact ⟨wfsd_body_not_found h0 h1 hm, ds_body_not_found h0 h1 hm⟩
  · intro e h0 h1
    exact ⟨wfsd_body_failed h0 h1, ds_body_failed h0 h1⟩
  · intro e s h0 h1 hf hc
    exact ⟨fun hw => wfsd_body_continue h0 h1 hf hc hw, ds_body_continue h0 h1 hf hc⟩
  · exact wfsd_succeeded_source t fuel q sl w
  · exact ds_succeeded_source t fuel q sl w
  · intro s
    exact wfsd_failed_source t fuel q sl w s
  · intro s
    exact ds_failed_source t fuel q sl w s

/-- Witness for C2 at a concrete trace: a query failure whose message says
the stack does not exist ends both delete loops with SUCCEEDED after one
query. -/
theorem C2_delete_classification_witness :
    wait_for_stack_deletion_aux
        (fun _ => Query.err "Stack with id gov-health-integration does not exist") 5 0 0 0 =
      ⟨Outcome.succeeded, 1, 0⟩ ∧
    delete_stack_aux
        (fun _ => Query.err "Stack with id gov-health-integration does not exist") 5 0 0 0 =
      ⟨Outcome.succeeded, 1, 0⟩ :=
  (C2_delete_classification
      (fun _ => Query.err "Stack with id gov-health-integration does not exist") 4 0 0 0).1
    "Stack with id gov-health-integration does not exist" rfl (by decide)

/-- C3: a query failure whose message indicates the resource does not exist
is terminal SUCCESS for both delete loops, a terminal FAILURE (a False
return) for the create watcher, and propagates as a raised error for the
update watcher. -/
theorem C3_not_found_error_policy (t : Nat → Query) (fuel q sl w : Nat)
    (m : String) (hm : not_found_msg m = true) :
    (t q = Query.err m →
      wait_for_stack_deletion_aux t (fuel + 1) q sl w = ⟨Outcome.succeeded, q + 1, sl⟩ ∧
      delete_stack_aux t (fuel + 1) q sl w = ⟨Outcome.succeeded, q + 1, sl⟩ ∧
      wait_for_stack_operation_aux "CREATE" t (fuel + 1) q sl w =
        ⟨Outcome.notFoundFailure, q + 1, sl⟩ ∧
      wait_for_stack_operation_aux "UPDATE" t (fuel + 1) q sl w =
        ⟨Outcome.raised m, q + 1, sl⟩) ∧
    (∀ e, t q = Query.ok e → t (q + 1) = Query.err m →
      wait_for_stack_deletion_aux t (fuel + 1) q sl w = ⟨Outcome.succeeded, q + 2, sl⟩ ∧
      delete_stack_aux t (fuel + 1) q sl w = ⟨Outcome.succeeded, q + 2, sl⟩) ∧
    Outcome.retVal Outcome.notFoundFailure = some (Except.ok false) ∧
    Outcome.retVal (Outcome.raised m) = some (Except.error m) := by
  refine ⟨fun ht => ⟨wfsd_cond_not_found ht hm, ds_cond_not_found ht hm,
      deploy_err_create ht hm, deploy_err_raise_not_create ht (by decide)⟩,
    fun e h0 h1 => ⟨wfsd_body_not_found h0 h1 hm, ds_body_not_found h0 h1 hm⟩,
    rfl, rfl⟩

/-- Witness for C3: the concrete not-found message ends the delete loop with
SUCCEEDED, the create watch with the not-found failure and the update watch
with a raised error. -/
theorem C3_not_found_error_policy_witness :
    wait_for_stack_deletion_aux
        (fun _ => Query.err "Stack with id gov-health-foundation does not exist") 3 0 0 0 =
      ⟨Outcome.succeeded, 1, 0⟩ ∧
    delete_stack_aux
        (fun _ => Query.err "Stack with id gov-health-foundation does not exist") 3 0 0 0 =
      ⟨Outcome.succeeded, 1, 0⟩ ∧
    wait_for_stack_operation_aux "CREATE"
        (fun _ => Query.err "Stack with id gov-health-foundation does not exist") 3 0 0 0 =
      ⟨Outcome.notFoundFailure, 1, 0⟩ ∧
    wait_for_stack_operation_aux "UPDATE"
        (fun _ => Query.err "Stack with id gov-health-foundation does not exist") 3 0 0 0 =
      ⟨Outcome.raised "Stack with id gov-health-foundation does not exist", 1, 0⟩ :=
  (C3_not_found_error_policy
      (fun _ => Query.err "Stack with id gov-health-foundation does not exist") 2 0 0 0
      "Stack with id gov-health-foundation does not exist" (by decide)).1 rfl

/-- C4 counterexample: REVIEW_IN_PROGRESS is a non-terminal status for the
create/update watcher, yet observing it 130 consecutive times never makes the
watch return TIMED_OUT: the counter is never incremented, so the watch keeps
querying past the 120th observation. -/
theorem C4_counterexample :
    (wait_for_stack_operation "CREATE" (fun _ => Query.ok "REVIEW_IN_PROGRESS") 130).queries =
      130 ∧
    (wait_for_stack_operation "CREATE"
        (fun _ => Query.ok "REVIEW_IN_PROGRESS") 130).outcome ≠ Outcome.timedOut ∧
    "REVIEW_IN_PROGRESS" ∉ success_statuses ∧
    "REVIEW_IN_PROGRESS" ∉ failure_statuses ∧
    max_wait < 130 := by
  have h := @deploy_const_other_loops "CREATE" "REVIEW_IN_PROGRESS"
    (by decide) (by decide) (by decide) 130 0 0 0
  refine ⟨?_, ?_, by decide, by decide, by decide⟩
  · show (wait_for_stack_operation_aux "CREATE"
      (fun _ => Query.ok "REVIEW_IN_PROGRESS") 130 0 0 0).queries = 130
    rw [h]
  · show (wait_for_stack_operation_aux "CREATE"
      (fun _ => Query.ok "REVIEW_IN_PROGRESS") 130 0 0 0).outcome ≠ Outcome.timedOut
    rw [h]
    decide

/-- C4 amended: the create/update watcher returns TIMED_OUT after exactly 120
consecutive observations of a known in-progress status, with no further
query; a status outside the three known lists never increments the budget,
so the watch polls for as long as it is given fuel; the bounded delete
watcher returns TIMED_OUT after 120 consecutive non-terminal observations
(two queries per observation) with no further query. -/
theorem C4_timeout_after_max_attempts (op s : String) (fuel : Nat) :
    (s ∈ in_progress_statuses → max_wait ≤ fuel →
      wait_for_stack_operation op (fun _ => Query.ok s) fuel =
        ⟨Outcome.timedOut, max_wait, max_wait - 1⟩) ∧
    (s ∉ success_statuses → s ∉ failure_statuses → s ∉ in_progress_statuses →
      wait_for_stack_operation op (fun _ => Query.ok s) fuel =
        ⟨Outcome.outOfFuel, fuel, fuel⟩) ∧
    (s ≠ "DELETE_FAILED" → s ≠ "DELETE_COMPLETE" → max_wait ≤ fuel →
      wait_for_stack_deletion (fun _ => Query.ok s) fuel =
        ⟨Outcome.timedOut, 2 * max_wait, max_wait - 1⟩) := by
  refine ⟨fun hs hf => ?_, fun h1 h2 h3 => ?_, fun hdf hdc hf => ?_⟩
  · have h := @deploy_const_in_progress_timeout op s hs max_wait fuel 0 0 0
      (by simp) (by decide) hf
    simpa [wait_for_stack_operation] using h
  · simpa [wait_for_stack_operation] using
      deploy_const_other_loops h1 h2 h3 fuel 0 0 0
  · have h := wfsd_const_timeout hdf hdc max_wait fuel 0 0 0
      (by simp) (by decide) hf
    simpa [wait_for_stack_deletion] using h

/-- Witness for C4 amended: 120 consecutive UPDATE_IN_PROGRESS observations
time the create/update watch out after exactly 120 queries. -/
theorem C4_timeout_after_max_attempts_witness :
    wait_for_stack_operation "UPDATE" (fun _ => Query.ok "UPDATE_IN_PROGRESS") 125 =
      ⟨Outcome.timedOut, max_wait, max_wait - 1⟩ :=
  (C4_timeout_after_max_attempts "UPDATE" "UPDATE_IN_PROGRESS" 125).1
    (by decide) (by decide)

/-- C5 counterexample: the delete loop of teardown-stack.py has no attempt
bound: after 150 polls (300 queries) against a stack that stays in
DELETE_IN_PROGRESS it is still polling, far past 120 attempts; and the RDS
availability waiter call site uses delay 30 and 40 attempts, not 10 and
120. -/
theorem C5_counterexample :
    (delete_stack (fun _ => Query.ok "DELETE_IN_PROGRESS") 150).outcome =
      Outcome.outOfFuel ∧
    (delete_stack (fun _ => Query.ok "DELETE_IN_PROGRESS") 150).queries = 300 ∧
    max_wait < 150 ∧
    rds_waiter_delay_seconds ≠ poll_interval_seconds ∧
    rds_waiter_max_attempts ≠ max_wait := by
  have h := @ds_const_loops "DELETE_IN_PROGRESS" (by decide) (by decide) 150 0 0 0
  refine ⟨?_, ?_, by decide, by decide, by decide⟩
  · show (delete_stack_aux (fun _ => Query.ok "DELETE_IN_PROGRESS") 150 0 0 0).outcome =
      Outcome.outOfFuel
    rw [h]
  · show (delete_stack_aux (fun _ => Query.ok "DELETE_IN_PROGRESS") 150 0 0 0).queries = 300
    rw [h]

/-- C5 amended: the two infrastructure watch loops use a 10-second poll
interval and max_wait = 120, and the bounded delete watch performs at most
2 * (120 - w) further queries from counter value w; but the delete loop of
teardown-stack.py polls without any attempt bound, and the RDS waiter call
site uses delay 30 with 40 attempts, so no uniform 120-poll ceiling covers
every call site. -/
theorem C5_poll_bounds (t : Nat → Query) (fuel q sl w : Nat) (s : String) :
    max_wait = 120 ∧ poll_interval_seconds = 10 ∧
    rds_waiter_delay_seconds = 30 ∧ rds_waiter_max_attempts = 40 ∧
    (w < max_wait →
      (wait_for_stack_deletion_aux t fuel q sl w).queries ≤ q + 2 * (max_wait - w)) ∧
    (s ≠ "DELETE_FAILED" → s ≠ "DELETE_COMPLETE" →
      delete_stack (fun _ => Query.ok s) fuel = ⟨Outcome.outOfFuel, 2 * fuel, fuel⟩) := by
  refine ⟨rfl, rfl, rfl, rfl, fun hw => wfsd_queries_bound t fuel q sl w hw,
    fun hdf hdc => ?_⟩
  simpa [delete_stack] using ds_const_loops hdf hdc fuel 0 0 0

/-- Witness for C5 amended: the bounded delete watch never exceeds 240
queries even with huge fuel, while the unbounded delete loop reaches 300
queries with fuel 150. -/
theorem C5_poll_bounds_witness :
    (wait_for_stack_deletion_aux (fun _ => Query.ok "DELETE_IN_PROGRESS") 500 0 0 0).queries ≤
      0 + 2 * (max_wait - 0) ∧
    delete_stack (fun _ => Query.ok "DELETE_IN_PROGRESS") 150 =
      ⟨Outcome.outOfFuel, 2 * 150, 150⟩ :=
  ⟨(C5_poll_bounds (fun _ => Query.ok "DELETE_IN_PROGRESS") 500 0 0 0
      "DELETE_IN_PROGRESS").2.2.2.2.1 (by decide),
    (C5_poll_bounds (fun _ => Query.ok "DELETE_IN_PROGRESS") 150 0 0 0
      "DELETE_IN_PROGRESS").2.2.2.2.2 (by decide) (by decide)⟩

/-- C6: the create/update loop increments its counter only on the three
known in-progress statuses and leaves it unchanged on any other non-terminal
status, while both delete loops increment their counter on every continuing
iteration. -/
theorem C6_attempt_counter_asymmetry (op s : String) (t : Nat → Query)
    (fuel q sl w : Nat) :
    (t q = Query.ok s → s ∈ in_progress_statuses → w + 1 < max_wait →
      wait_for_stack_operation_aux op t (fuel + 1) q sl w =
        wait_for_stack_operation_aux op t fuel (q + 1) (sl + 1) (w + 1)) ∧
    (t q = Query.ok s → s ∉ success_statuses → s ∉ failure_statuses →
      s ∉ in_progress_statuses →
      wait_for_stack_operation_aux op t (fuel + 1) q sl w =
        wait_for_stack_operation_aux op t fuel (q + 1) (sl + 1) w) ∧
    (∀ e, t q = Query.ok e → t (q + 1) = Query.ok s → s ≠ "DELETE_FAILED" →
      s ≠ "DELETE_COMPLETE" → w + 1 < max_wait →
      wait_for_stack_deletion_aux t (fuel + 1) q sl w =
        wait_for_stack_deletion_aux t fuel (q + 2) (sl + 1) (w + 1)) ∧
    (∀ e, t q = Query.ok e → t (q + 1) = Query.ok s → s ≠ "DELETE_FAILED" →
      s ≠ "DELETE_COMPLETE" →
      delete_stack_aux t (fuel + 1) q sl w =
        delete_stack_aux t fuel (q + 2) (sl + 1) (w + 1)) := by
  refine ⟨fun ht hs hw => deploy_ok_in_progress ht hs hw,
    fun ht h1 h2 h3 => deploy_ok_other ht h1 h2 h3,
    fun e h0 h1 hf hc hw => wfsd_body_continue h0 h1 hf hc hw,
    fun e h0 h1 hf hc => ds_body_continue h0 h1 hf hc⟩

/-- Witness for C6: an unrecognized status leaves the create/update counter
at 7, while a delete poll moves the counter from 7 to 8. -/
theorem C6_attempt_counter_asymmetry_witness :
    wait_for_stack_operation_aux "CREATE" (fun _ => Query.ok "REVIEW_IN_PROGRESS") 6 0 0 7 =
      wait_for_stack_operation_aux "CREATE" (fun _ => Query.ok "REVIEW_IN_PROGRESS") 5 1 1 7 ∧
    wait_for_stack_deletion_aux (fun _ => Query.ok "DELETE_IN_PROGRESS") 6 0 0 7 =
      wait_for_stack_deletion_aux (fun _ => Query.ok "DELETE_IN_PROGRESS") 5 2 1 8 :=
  ⟨(C6_attempt_counter_asymmetry "CREATE" "REVIEW_IN_PROGRESS"
      (fun _ => Query.ok "REVIEW_IN_PROGRESS") 5 0 0 7).2.1 rfl
      (by decide) (by decide) (by decide),
    (C6_attempt_counter_asymmetry "none" "DELETE_IN_PROGRESS"
      (fun _ => Query.ok "DELETE_IN_PROGRESS") 5 0 0 7).2.2.1 "DELETE_IN_PROGRESS"
      rfl rfl (by decide) (by decide) (by decide)⟩

set_option maxRecDepth 4000 in
/-- C7 counterexample: a run ending in the failure status CREATE_FAILED and a
run ending in timeout hand the very same value back to the caller (a plain
False), so the returned value does not distinguish FAILED from TIMED_OUT. -/
theorem C7_counterexample :
    (wait_for_stack_operation "CREATE" (fun _ => Query.ok "CREATE_FAILED") 10).outcome =
      Outcome.failed "CREATE_FAILED" ∧
    (wait_for_stack_operation "CREATE" (fun _ => Query.ok "CREATE_IN_PROGRESS") 125).outcome =
      Outcome.timedOut ∧
    Outcome.retVal
        (wait_for_stack_operation "CREATE" (fun _ => Query.ok "CREATE_FAILED") 10).outcome =
      Outcome.retVal
        (wait_for_stack_operation "CREATE"
          (fun _ => Query.ok "CREATE_IN_PROGRESS") 125).outcome := by
  have h1 : (wait_for_stack_operation "CREATE"
      (fun _ => Query.ok "CREATE_FAILED") 10).outcome = Outcome.failed "CREATE_FAILED" := by
    decide
  have h2 : (wait_for_stack_operation "CREATE"
      (fun _ => Query.ok "CREATE_IN_PROGRESS") 125).outcome = Outcome.timedOut := by
    decide
  refine ⟨h1, h2, ?_⟩
  rw [h1, h2]
  rfl

/-- C7 amended: failure and timeout are distinct terminal branches (reported
to the operator through different console messages, the failure one carrying
the exact observed status), both end the watch immediately with no retry,
and both return the same value False to the caller. -/
theorem C7_unsuccessful_outcomes (op s : String) (t : Nat → Query)
    (fuel q sl w : Nat) :
    (t q = Query.ok s → s ∈ failure_statuses →
      wait_for_stack_operation_aux op t (fuel + 1) q sl w =
        ⟨Outcome.failed s, q + 1, sl⟩ ∧
      Outcome.retVal (Outcome.failed s) = some (Except.ok false)) ∧
    (t q = Query.ok s → s ∈ in_progress_statuses → max_wait ≤ w + 1 →
      wait_for_stack_operation_aux op t (fuel + 1) q sl w =
        ⟨Outcome.timedOut, q + 1, sl⟩ ∧
      Outcome.retVal Outcome.timedOut = some (Except.ok false)) ∧
    Outcome.failed s ≠ Outcome.timedOut := by
  refine ⟨fun ht hs => ⟨deploy_ok_failure ht hs, rfl⟩,
    fun ht hs hw => ⟨deploy_ok_in_progress_timeout ht hs hw, rfl⟩, by simp⟩

/-- Witness for C7 amended: ROLLBACK_COMPLETE ends the watch at once with the
exact status recorded and a False return value. -/
theorem C7_unsuccessful_outcomes_witness :
    wait_for_stack_operation_aux "CREATE" (fun _ => Query.ok "ROLLBACK_COMPLETE") 4 0 0 0 =
      ⟨Outcome.failed "ROLLBACK_COMPLETE", 1, 0⟩ ∧
    Outcome.retVal (Outcome.failed "ROLLBACK_COMPLETE") = some (Except.ok false) :=
  (C7_unsuccessful_outcomes "CREATE" "ROLLBACK_COMPLETE"
      (fun _ => Query.ok "ROLLBACK_COMPLETE") 3 0 0 0).1 rfl (by decide)

/-- C8 counterexample: with every query answering DELETE_COMPLETE, the
bounded delete watch returns SUCCEEDED only after two queries (the existence
check plus the status fetch), not after exactly one. -/
theorem C8_counterexample :
    wait_for_stack_deletion (fun _ => Query.ok "DELETE_COMPLETE") 10 =
      ⟨Outcome.succeeded, 2, 0⟩ ∧
    (wait_for_stack_deletion (fun _ => Query.ok "DELETE_COMPLETE") 10).queries ≠ 1 := by
  decide

/-- C8 amended: each watch is deterministic and returns on the first terminal
observation: the create/update watch returns after exactly one query when
the first query carries a terminal status, two runs seeing the same terminal
first status return the same result, and the delete loops return after the
two queries of their first iteration when the first status fetch is
terminal. -/
theorem C8_single_terminal_query (op s : String) (t t2 : Nat → Query)
    (fuel fuel2 : Nat) :
    (t 0 = Query.ok s → s ∈ success_statuses →
      wait_for_stack_operation op t (fuel + 1) = ⟨Outcome.succeeded, 1, 0⟩) ∧
    (t 0 = Query.ok s → s ∈ failure_statuses →
      wait_for_stack_operation op t (fuel + 1) = ⟨Outcome.failed s, 1, 0⟩) ∧
    (t 0 = Query.ok s → t2 0 = Query.ok s →
      (s ∈ success_statuses ∨ s ∈ failure_statuses) →
      wait_for_stack_operation op t (fuel + 1) =
        wait_for_stack_operation op t2 (fuel2 + 1)) ∧
    (∀ e, t 0 = Query.ok e → t 1 = Query.ok "DELETE_COMPLETE" →
      wait_for_stack_deletion t (fuel + 1) = ⟨Outcome.succeeded, 2, 0⟩ ∧
      delete_stack t (fuel + 1) = ⟨Outcome.succeeded, 2, 0⟩) ∧
    (∀ e, t 0 = Query.ok e → t 1 = Query.ok "DELETE_FAILED" →
      wait_for_stack_deletion t (fuel + 1) =
        ⟨Outcome.failed "DELETE_FAILED", 2, 0⟩ ∧
      delete_stack t (fuel + 1) = ⟨Outcome.failed "DELETE_FAILED", 2, 0⟩) := by
  refine ⟨fun ht hs => ?_, fun ht hs => ?_, fun ht ht2 hs => ?_,
    fun e h0 h1 => ?_, fun e h0 h1 => ?_⟩
  · simpa [wait_for_stack_operation] using @deploy_ok_success op s t fuel 0 0 0 ht hs
  · simpa [wait_for_stack_operation] using @deploy_ok_failure op s t fuel 0 0 0 ht hs
  · rcases hs with hs | hs
    · have a1 := @deploy_ok_success op s t fuel 0 0 0 ht hs
      have a2 := @deploy_ok_success op s t2 fuel2 0 0 0 ht2 hs
      simp only [wait_for_stack_operation]
      rw [a1, a2]
    · have a1 := @deploy_ok_failure op s t fuel 0 0 0 ht hs
      have a2 := @deploy_ok_failure op s t2 fuel2 0 0 0 ht2 hs
      simp only [wait_for_stack_operation]
      rw [a1, a2]
  · constructor
    · simpa [wait_for_stack_deletion] using @wfsd_body_complete e t fuel 0 0 0 h0 h1
    · simpa [delete_stack] using @ds_body_complete e t fuel 0 0 0 h0 h1
  · constructor
    · simpa [wait_for_stack_deletion] using @wfsd_body_failed e t fuel 0 0 0 h0 h1
    · simpa [delete_stack] using @ds_body_failed e t fuel 0 0 0 h0 h1

/-- Witness for C8 amended: a first observation of UPDATE_COMPLETE ends the
create/update watch after exactly one query, for two different fuels. -/
theorem C8_single_terminal_query_witness :
    wait_for_stack_operation "UPDATE" (fun _ => Query.ok "UPDATE_COMPLETE") 8 =
      ⟨Outcome.succeeded, 1, 0⟩ ∧
    wait_for_stack_operation "UPDATE" (fun _ => Query.ok "UPDATE_COMPLETE") 8 =
      wait_for_stack_operation "UPDATE" (fun _ => Query.ok "UPDATE_COMPLETE") 3 :=
  ⟨(C8_single_terminal_query "UPDATE" "UPDATE_COMPLETE"
      (fun _ => Query.ok "UPDATE_COMPLETE") (fun _ => Query.ok "UPDATE_COMPLETE")
      7 2).1 rfl (by decide),
    (C8_single_terminal_query "UPDATE" "UPDATE_COMPLETE"
      (fun _ => Query.ok "UPDATE_COMPLETE") (fun _ => Query.ok "UPDATE_COMPLETE")
      7 2).2.2.1 rfl rfl (Or.inl (by decide))⟩

/-- C9 counterexample: a rate-limit style transport error ends the
teardown-stack delete loop at once, but instead of propagating it is caught
by the outer handler of delete_stack, and the caller receives a plain False
return value rather than the error. -/
theorem C9_counterexample :
    delete_stack (fun _ => Query.err "Rate exceeded") 10 =
      ⟨Outcome.caughtError "Rate exceeded", 1, 0⟩ ∧
    not_found_msg "Rate exceeded" = false ∧
    Outcome.retVal (Outcome.caughtError "Rate exceeded") = some (Except.ok false) := by
  refine ⟨by decide, by decide, rfl⟩

/-- C9 amended: a transport error whose message does not indicate absence
ends every watch immediately, with no further query and no retry; it leaves
the create/update and bounded delete watchers as a raised error, while the
teardown-stack delete loop catches it at the function boundary and returns
False. -/
theorem C9_transport_error_policy (op m : String) (t : Nat → Query)
    (fuel q sl w : Nat) (hm : not_found_msg m = false) :
    (t q = Query.err m →
      wait_for_stack_operation_aux op t (fuel + 1) q sl w = ⟨Outcome.raised m, q + 1, sl⟩ ∧
      wait_for_stack_deletion_aux t (fuel + 1) q sl w = ⟨Outcome.raised m, q + 1, sl⟩ ∧
      delete_stack_aux t (fuel + 1) q sl w = ⟨Outcome.caughtError m, q + 1, sl⟩) ∧
    (∀ e, t q = Query.ok e → t (q + 1) = Query.err m →
      wait_for_stack_deletion_aux t (fuel + 1) q sl w = ⟨Outcome.raised m, q + 2, sl⟩ ∧
      delete_stack_aux t (fuel + 1) q sl w = ⟨Outcome.caughtError m, q + 2, sl⟩) ∧
    Outcome.retVal (Outcome.raised m) = some (Except.error m) ∧
    Outcome.retVal (Outcome.caughtError m) = some (Except.ok false) := by
  refine ⟨fun ht => ⟨deploy_err_raise_transport ht hm, wfsd_cond_raise ht hm,
      ds_cond_caught ht hm⟩,
    fun e h0 h1 => ⟨wfsd_body_raise h0 h1 hm, ds_body_caught h0 h1 hm⟩, rfl, rfl⟩

/-- Witness for C9 amended: the concrete message Rate exceeded stops all
three loops after one query. -/
theorem C9_transport_error_policy_witness :
    wait_for_stack_operation_aux "UPDATE" (fun _ => Query.err "Rate exceeded") 4 0 0 0 =
      ⟨Outcome.raised "Rate exceeded", 1, 0⟩ ∧
    wait_for_stack_deletion_aux (fun _ => Query.err "Rate exceeded") 4 0 0 0 =
      ⟨Outcome.raised "Rate exceeded", 1, 0⟩ ∧
    delete_stack_aux (fun _ => Query.err "Rate exceeded") 4 0 0 0 =
      ⟨Outcome.caughtError "Rate exceeded", 1, 0⟩ :=
  (C9_transport_error_policy "UPDATE" "Rate exceeded"
      (fun _ => Query.err "Rate exceeded") 3 0 0 0 (by decide)).1 rfl

/-- C10: every continuing iteration of the bounded delete loop performs two
queries, the existence check of the loop condition and the status fetch of
the body, so a delete watch that runs to its attempt bound performs
2 * 120 = 240 queries, twice its 120 status observations. -/
theorem C10_delete_double_query (t : Nat → Query) (fuel q sl w : Nat) (s : String) :
    (∀ e, t q = Query.ok e → t (q + 1) = Query.ok s → s ≠ "DELETE_FAILED" →
      s ≠ "DELETE_COMPLETE" → w + 1 < max_wait →
      wait_for_stack_deletion_aux t (fuel + 1) q sl w =
        wait_for_stack_deletion_aux t fuel (q + 2) (sl + 1) (w + 1)) ∧
    (s ≠ "DELETE_FAILED" → s ≠ "DELETE_COMPLETE" → max_wait ≤ fuel →
      wait_for_stack_deletion (fun _ => Query.ok s) fuel =
        ⟨Outcome.timedOut, 2 * max_wait, max_wait - 1⟩) := by
  refine ⟨fun e h0 h1 hf hc hw => wfsd_body_continue h0 h1 hf hc hw,
    fun hdf hdc hf => ?_⟩
  have h := wfsd_const_timeout hdf hdc max_wait fuel 0 0 0 (by simp) (by decide) hf
  simpa [wait_for_stack_deletion] using h

/-- Witness for C10: a stack stuck in DELETE_IN_PROGRESS times the delete
watch out after 240 queries for its 120 observations. -/
theorem C10_delete_double_query_witness :
    wait_for_stack_deletion (fun _ => Query.ok "DELETE_IN_PROGRESS") 120 =
      ⟨Outcome.timedOut, 2 * max_wait, max_wait - 1⟩ :=
  (C10_delete_double_query (fun _ => Query.ok "DELETE_IN_PROGRESS") 120 0 0 0
      "DELETE_IN_PROGRESS").2 (by decide) (by decide) (by decide)

end EHRWatch
